import Mathlib

/-!
Shallow embedding of `src/awareutils/vision/img.py` (the `Img` class of the
`awareutils` repository): the representation-tagged image value, its
constructor and contiguity policy, the format converters
`rgb`/`bgr`/`pil`, file save/load with the EXIF-UserComment metadata
round-trip, and crop.

External collaborators (numpy, OpenCV `cv2`, PIL, `piexif`, `json`) are not
code of this repository; they are modelled at their interface boundary as the
spec describes them in its external-interfaces section:
  - a numpy array is a `Buf`: shape plus a total pixel function plus a
    C-contiguity flag; `np.ascontiguousarray` preserves pixel content and
    makes the flag true;
  - `cv2.cvtColor` with `COLOR_BGR2RGB` / `COLOR_RGB2BGR` swaps channels 0
    and 2 of the last axis and returns a fresh contiguous array;
  - a PIL image is its RGB pixel content plus the optional raw EXIF payload
    found in its `info` dict;
  - `json.dumps`/`json.loads` and `piexif.dump`/`piexif.load` form codec
    pairs that round-trip; they are collapsed so that the serialized EXIF
    payload is modelled by the structured `ExifBlock` it encodes, and the
    UserComment field carries the JSON value it encodes.  The
    malformed-JSON failure mode is outside this model; the KeyError raised
    by `piexif.load(...)[Exif][UserComment]` when the tag is absent is
    modelled (`Err.keyError`).
A file on disk is a `FileData`: decoded pixel content (in RGB channel
order) plus the optional embedded EXIF block.  Saving returns the written
`FileData` together with a small trace (which encoder ran, the options it
received, how many channel-order conversions were performed), so that the
encoder-routing behaviour of `Img.save` is stated directly.
-/

namespace AwareImg

/-- JSON-serializable values: the shape of the metadata records an `Img`
carries (Python dicts of JSON-compatible values). -/
inductive Json where
  | null : Json
  | bool (b : Bool) : Json
  | num (n : Int) : Json
  | str (s : String) : Json
  | arr (xs : List Json) : Json
  | obj (kvs : List (String × Json)) : Json

/-- Model of a numpy pixel array: height, width, channels, a total pixel
function (row `y`, column `x`, channel `ch`), and the C-contiguity flag
(`flags.c_contiguous`). -/
structure Buf where
  h : Nat
  w : Nat
  c : Nat
  data : Nat → Nat → Nat → Nat
  contiguous : Bool

/-- Pixel-for-pixel equality of two buffers: same dimensions and the same
value at every index. -/
def Buf.pixEq (a b : Buf) : Prop :=
  a.h = b.h ∧ a.w = b.w ∧ a.c = b.c ∧ ∀ y x ch, a.data y x ch = b.data y x ch

/-- Model of `np.ascontiguousarray`: pixel content is unchanged, the result
is C-contiguous. -/
def np_ascontiguousarray (b : Buf) : Buf :=
  { b with contiguous := true }

/-- Channel permutation performed by `cv2.COLOR_BGR2RGB` and
`cv2.COLOR_RGB2BGR`: swap channels 0 and 2, keep channel 1. -/
def swapCh (ch : Nat) : Nat :=
  if ch = 0 then 2 else if ch = 2 then 0 else ch

/-- Model of `cv2.cvtColor(b, COLOR_BGR2RGB)` (identically,
`COLOR_RGB2BGR`): swap channels 0 and 2 on the last axis, producing a fresh
contiguous array. -/
def cv2_cvtColor_swap (b : Buf) : Buf :=
  { h := b.h, w := b.w, c := b.c,
    data := fun y x ch => b.data y x (swapCh ch),
    contiguous := true }

/-- Model of `ndarray.copy()`: an independent C-contiguous copy with the
same pixel content. -/
def Buf.copy (b : Buf) : Buf :=
  { b with contiguous := true }

/-- Decoded EXIF payload, as far as this program uses it: the optional
`UserComment` tag of the Exif IFD.  The tag's bytes are modelled by the
JSON value they encode (`json.dumps`/`json.loads` collapse). -/
structure ExifBlock where
  userComment : Option Json

/-- Model of a PIL image: its RGB pixel content and the optional raw EXIF
payload that `pil.info` carries under the key `exif`. -/
structure PILImg where
  pixels : Buf
  infoExif : Option ExifBlock

/-- Model of `np.array(pil)`: the RGB pixel content as a fresh contiguous
array. -/
def np_array_of_pil (p : PILImg) : Buf :=
  np_ascontiguousarray p.pixels

/-- Model of `pil.crop((x0, y0, x1p, y1p))`: a fresh PIL image of size
`(x1p - x0) × (y1p - y0)` whose pixel `(y, x)` is the source pixel
`(y0 + y, x0 + x)`. -/
def PILImg.cropBox (p : PILImg) (x0 y0 x1p y1p : Nat) : PILImg :=
  { pixels :=
      { h := y1p - y0, w := x1p - x0, c := p.pixels.c,
        data := fun y x ch => p.pixels.data (y0 + y) (x0 + x) ch,
        contiguous := true },
    infoExif := none }

/-- The `ImgType` enumeration of `img.py` (the spec's RepresentationTag;
`PIL` is the spec's OBJECT). -/
inductive ImgType where
  | BGR : ImgType
  | RGB : ImgType
  | PIL : ImgType
deriving DecidableEq

/-- The dynamic type of an `Img` source: a numpy array or a PIL image. -/
inductive Source where
  | arr (b : Buf) : Source
  | pil (p : PILImg) : Source

/-- The `Img` class: source, representation tag, optional metadata, the
contiguity policy flag, and the height/width attributes cached by
`__init__`. -/
structure Img where
  source : Source
  itype : ImgType
  metadata : Option Json
  make_arrays_contiguous : Bool
  h : Nat
  w : Nat

/-- The Python exceptions this embedding distinguishes.  `typeMismatch`,
`conflictingOption` and `unsupportedOption` are the three `RuntimeError`
sites of `__init__`, `save` and `crop`; `keyError` is the `KeyError` raised
by `piexif.load(...)[Exif][UserComment]` when the tag is absent. -/
inductive Err where
  | typeMismatch : Err
  | conflictingOption : Err
  | unsupportedOption : Err
  | keyError : Err
deriving DecidableEq

/-- Embedding of `Img.__init__`: validates the source's dynamic type
against `itype` and caches height and width from the stored source.  Note
the source code assigns `self.source = source` (img.py line 38) before the
contiguity branch, and the `source = np.ascontiguousarray(source)` at line
51 rebinds only the local variable, never `self.source` — so the
contiguous copy is discarded and the stored buffer is the supplied one
unchanged (when the flag is unset the code only emits a log warning, which
this model drops). -/
def mkImg (source : Source) (itype : ImgType) (metadata : Option Json)
    (mac : Bool) : Except Err Img :=
  match itype, source with
  | ImgType.PIL, Source.pil p =>
      Except.ok { source := Source.pil p, itype := ImgType.PIL,
                  metadata := metadata, make_arrays_contiguous := mac,
                  h := p.pixels.h, w := p.pixels.w }
  | ImgType.PIL, Source.arr _ => Except.error Err.typeMismatch
  | ImgType.BGR, Source.pil _ => Except.error Err.typeMismatch
  | ImgType.RGB, Source.pil _ => Except.error Err.typeMismatch
  | ImgType.BGR, Source.arr b =>
      Except.ok { source := Source.arr b, itype := ImgType.BGR,
                  metadata := metadata, make_arrays_contiguous := mac,
                  h := b.h, w := b.w }
  | ImgType.RGB, Source.arr b =>
      Except.ok { source := Source.arr b, itype := ImgType.RGB,
                  metadata := metadata, make_arrays_contiguous := mac,
                  h := b.h, w := b.w }

/-- Well-formedness of an `Img` as `__init__` guarantees it: the source's
dynamic type matches `itype`, and the cached height/width agree with the
source's dimensions. -/
def Img.wf (img : Img) : Bool :=
  match img.itype, img.source with
  | ImgType.PIL, Source.pil p => img.h == p.pixels.h && img.w == p.pixels.w
  | ImgType.RGB, Source.arr b => img.h == b.h && img.w == b.w
  | ImgType.BGR, Source.arr b => img.h == b.h && img.w == b.w
  | _, _ => false

/-- Embedding of `Img.rgb`: PIL source is converted via `np.array`, RGB is
returned as-is, BGR goes through one `cvtColor`; the result is made
contiguous when the policy flag is set.  `none` only on
representation/source mismatches, which `__init__` makes unreachable. -/
def Img.rgb (img : Img) : Option Buf :=
  let base : Option Buf :=
    match img.itype, img.source with
    | ImgType.PIL, Source.pil p => some (np_array_of_pil p)
    | ImgType.RGB, Source.arr b => some b
    | ImgType.BGR, Source.arr b => some (cv2_cvtColor_swap b)
    | _, _ => none
  base.map (fun a => if img.make_arrays_contiguous then np_ascontiguousarray a else a)

/-- Embedding of `Img.bgr`: PIL source via `np.array` then one `cvtColor`,
RGB through one `cvtColor`, BGR as-is; made contiguous when the policy
flag is set. -/
def Img.bgr (img : Img) : Option Buf :=
  let base : Option Buf :=
    match img.itype, img.source with
    | ImgType.PIL, Source.pil p => some (cv2_cvtColor_swap (np_array_of_pil p))
    | ImgType.RGB, Source.arr b => some (cv2_cvtColor_swap b)
    | ImgType.BGR, Source.arr b => some b
    | _, _ => none
  base.map (fun a => if img.make_arrays_contiguous then np_ascontiguousarray a else a)

/-- Embedding of `Img.pil`: PIL source returned as-is; RGB via
`PIL.Image.fromarray(np.ascontiguousarray(source))`; BGR additionally
through one `cvtColor`.  A PIL image built from an array has no EXIF in
its `info`. -/
def Img.pil (img : Img) : Option PILImg :=
  match img.itype, img.source with
  | ImgType.PIL, Source.pil p => some p
  | ImgType.RGB, Source.arr b =>
      some { pixels := np_ascontiguousarray b, infoExif := none }
  | ImgType.BGR, Source.arr b =>
      some { pixels := cv2_cvtColor_swap (np_ascontiguousarray b), infoExif := none }
  | _, _ => none

/-- Keyword-argument dictionary passed to `Img.save` and forwarded to
`pil.save`.  Values are the option payloads the program uses: the EXIF
bytes (modelled structurally) and boolean flags such as `optimize`. -/
inductive OptVal where
  | exif (e : ExifBlock) : OptVal
  | flag (b : Bool) : OptVal

/-- Keyword arguments as an association list, first binding wins. -/
abbrev Kwargs := List (String × OptVal)

/-- Membership test `key in kwargs`. -/
def Kwargs.hasKey (k : Kwargs) (s : String) : Bool :=
  k.any (fun kv => kv.1 == s)

/-- Lookup `kwargs[key]`. -/
def Kwargs.get (k : Kwargs) (s : String) : Option OptVal :=
  match k with
  | [] => none
  | kv :: rest => if kv.1 == s then some kv.2 else Kwargs.get rest s

/-- Which encoder a save call ran: `pil.save` or `cv2.imwrite`. -/
inductive Encoder where
  | pilEncoder : Encoder
  | cv2Encoder : Encoder
deriving DecidableEq

/-- An image file on disk: decoded pixel content (RGB channel order) and
the optional embedded EXIF block. -/
structure FileData where
  pixels : Buf
  exif : Option ExifBlock

/-- The outcome of a successful `Img.save`: the file written, plus a trace
of which encoder ran, the keyword options it received (`[]` for the
`cv2.imwrite` path, which takes none), and how many channel-order
conversions (`cv2.cvtColor` calls) the save performed. -/
structure SaveResult where
  encoder : Encoder
  file : FileData
  kwargs : Kwargs
  conversions : Nat

/-- Model of `piexif.dump` applied to the dict `save` builds:
`piexif.dump(\x7b"Exif": \x7bUserComment: json.dumps(m).encode("utf8")\x7d\x7d)`
produces the EXIF payload whose UserComment tag carries `m`. -/
def exifForMetadata (m : Json) : ExifBlock :=
  { userComment := some m }

/-- Model of `pil.save(path, **kwargs)`: writes the image's RGB pixel
content, embedding the EXIF payload passed under the `exif` keyword if
any. -/
def pil_save (p : PILImg) (kwargs : Kwargs) : FileData :=
  { pixels := p.pixels,
    exif :=
      match Kwargs.get kwargs "exif" with
      | some (OptVal.exif e) => some e
      | _ => none }

/-- Model of `cv2.imwrite(path, b)`: `b` is interpreted as BGR, so the
file's RGB pixel content is `b` with channels swapped; `cv2.imwrite`
embeds no EXIF. -/
def cv2_imwrite (b : Buf) : FileData :=
  { pixels := cv2_cvtColor_swap b, exif := none }

/-- Embedding of `Img.save`.  Mirrors the source: compute
`should_save_metadata = save_metadata and metadata is not None`; if the
representation is PIL or metadata is being saved, go through `self.pil()`
and `pil.save`, first refusing an explicit `exif` keyword
(`Err.conflictingOption`, the `RuntimeError` of the source; the error
return models raising before any file write), then injecting the piexif
payload and defaulting `optimize` to `True`; otherwise write the buffer
with `cv2.imwrite`, converting RGB to BGR first when needed.  The trace
fields record the encoder, its options and the conversion count. -/
def Img.save (img : Img) (save_metadata : Bool) (kwargs : Kwargs) :
    Except Err SaveResult :=
  let should := save_metadata && img.metadata.isSome
  if img.itype == ImgType.PIL || should then
    match img.pil with
    | none => Except.error Err.typeMismatch
    | some p =>
        if should && Kwargs.hasKey kwargs "exif" then
          Except.error Err.conflictingOption
        else
          let kw1 :=
            if should then
              match img.metadata with
              | some m => ("exif", OptVal.exif (exifForMetadata m)) :: kwargs
              | none => kwargs
            else kwargs
          let kw2 :=
            if Kwargs.hasKey kw1 "optimize" then kw1
            else ("optimize", OptVal.flag true) :: kw1
          Except.ok { encoder := Encoder.pilEncoder, file := pil_save p kw2,
                      kwargs := kw2,
                      conversions := if img.itype == ImgType.BGR then 1 else 0 }
  else
    match img.itype, img.source with
    | ImgType.RGB, Source.arr b =>
        Except.ok { encoder := Encoder.cv2Encoder,
                    file := cv2_imwrite (cv2_cvtColor_swap b),
                    kwargs := [], conversions := 1 }
    | ImgType.BGR, Source.arr b =>
        Except.ok { encoder := Encoder.cv2Encoder, file := cv2_imwrite b,
                    kwargs := [], conversions := 0 }
    | _, _ => Except.error Err.typeMismatch

/-- Model of `PIL.Image.open(path)`: decode the file's pixel content and
expose its EXIF payload (if any) in `info`. -/
def pil_open (f : FileData) : PILImg :=
  { pixels := f.pixels, infoExif := f.exif }

/-- Model of `cv2.imread(path)`: decode to a BGR array. -/
def cv2_imread (f : FileData) : Buf :=
  cv2_cvtColor_swap f.pixels

/-- Model of `piexif.load(meta)["Exif"][piexif.ExifIFD.UserComment]`
followed by `json.loads`: returns the JSON value carried by the
UserComment tag, and raises `KeyError` when the EXIF payload has no such
tag. -/
def piexif_load_userComment (e : ExifBlock) : Except Err Json :=
  match e.userComment with
  | some j => Except.ok j
  | none => Except.error Err.keyError

/-- Embedding of the classmethod `Img.open` (named `load` here because
`open` is reserved in Lean).  Without `load_metadata`: decode via
`cv2.imread` for the array representations (converting once for RGB) or
via `PIL.Image.open` for PIL.  With `load_metadata`: decode through PIL;
if `pil.info` has no `exif` entry the metadata stays `None`; if it has
one, the UserComment tag is extracted (raising `KeyError` when absent) and
parsed; then convert to the requested representation. -/
def Img.load (f : FileData) (itype : ImgType) (load_metadata : Bool) :
    Except Err Img :=
  if !load_metadata then
    match itype with
    | ImgType.BGR => mkImg (Source.arr (cv2_imread f)) ImgType.BGR none true
    | ImgType.RGB =>
        mkImg (Source.arr (cv2_cvtColor_swap (cv2_imread f))) ImgType.RGB none true
    | ImgType.PIL => mkImg (Source.pil (pil_open f)) ImgType.PIL none true
  else
    let p := pil_open f
    let metaE : Except Err (Option Json) :=
      match p.infoExif with
      | none => Except.ok none
      | some e =>
          match piexif_load_userComment e with
          | Except.ok j => Except.ok (some j)
          | Except.error err => Except.error err
    match metaE with
    | Except.error err => Except.error err
    | Except.ok meta =>
        match itype with
        | ImgType.BGR =>
            mkImg (Source.arr (cv2_cvtColor_swap (np_array_of_pil p)))
              ImgType.BGR meta true
        | ImgType.RGB =>
            mkImg (Source.arr (np_array_of_pil p)) ImgType.RGB meta true
        | ImgType.PIL => mkImg (Source.pil p) ImgType.PIL meta true

/-- Rectangle with inclusive corners, as the crop code uses it (fields
`x0, y0, x1, y1` of `awareutils.vision.shape.Rectangle`). -/
structure Rectangle where
  x0 : Nat
  y0 : Nat
  x1 : Nat
  y1 : Nat

/-- Modelled from the spec: `Rectangle.slice_array` is defined in
`awareutils/vision/shape.py`, which is not among the provided sources.
Per the spec, cropping a buffer takes the rectangular region from
`(x0, y0)` to `(x1, y1)` inclusive on both axes, i.e. the numpy basic
slice `arr[y0 : y1 + 1, x0 : x1 + 1]`; slice bounds clamp to the array's
extent as numpy slicing does, the result is a view whose pixel `(y, x)` is
the source pixel `(y0 + y, x0 + x)`, and the view is C-contiguous only
when it spans whole rows of a contiguous source. -/
def Rectangle.slice_array (r : Rectangle) (b : Buf) : Buf :=
  { h := min (r.y1 + 1) b.h - r.y0,
    w := min (r.x1 + 1) b.w - r.x0,
    c := b.c,
    data := fun y x ch => b.data (r.y0 + y) (r.x0 + x) ch,
    contiguous := b.contiguous && (r.x0 == 0) && decide (b.w ≤ r.x1 + 1) }

/-- Embedding of `Img.crop`: for a PIL source, `copy=False` raises
(`Err.unsupportedOption`, the source's `RuntimeError`: PIL crops always
copy), and `copy=True` crops via `pil.crop` with exclusive right/bottom
bounds `x1 + 1, y1 + 1`; for array sources the rectangle slices the array
(copying when `copy` is set) and a new `Img` is built with the receiver's
`itype` and `metadata` (the constructor's contiguity flag takes its
default, `True`). -/
def Img.crop (img : Img) (r : Rectangle) (copy : Bool) : Except Err Img :=
  match img.itype, img.source with
  | ImgType.PIL, Source.pil p =>
      if !copy then Except.error Err.unsupportedOption
      else
        mkImg (Source.pil (p.cropBox r.x0 r.y0 (r.x1 + 1) (r.y1 + 1)))
          ImgType.PIL img.metadata true
  | ImgType.RGB, Source.arr b =>
      let s := r.slice_array b
      let s2 := if copy then s.copy else s
      mkImg (Source.arr s2) ImgType.RGB img.metadata true
  | ImgType.BGR, Source.arr b =>
      let s := r.slice_array b
      let s2 := if copy then s.copy else s
      mkImg (Source.arr s2) ImgType.BGR img.metadata true
  | _, _ => Except.error Err.typeMismatch

/-- Concrete sample buffer used by witnesses: 2 by 2, 3 channels, constant
pixel value 3. -/
def bufC : Buf :=
  { h := 2, w := 2, c := 3, data := fun _ _ _ => 3, contiguous := true }

/-- Concrete non-contiguous 2 by 2 buffer used by witnesses. -/
def bufNC : Buf :=
  { h := 2, w := 2, c := 3, data := fun y x ch => y + x + ch,
    contiguous := false }

/-- Concrete sample BGR image with metadata, used by witnesses. -/
def imgC : Img :=
  { source := Source.arr bufC, itype := ImgType.BGR,
    metadata := some (Json.str "cat"), make_arrays_contiguous := true,
    h := 2, w := 2 }

/-- Concrete sample rectangle covering the whole 2 by 2 extent. -/
def rectC : Rectangle := { x0 := 0, y0 := 0, x1 := 1, y1 := 1 }

/-- The image produced by cropping `imgC` with `rectC` (the fallback arm is
unreachable: the crop succeeds by computation). -/
def cropResC : Img :=
  match imgC.crop rectC false with
  | Except.ok i => i
  | Except.error _ => imgC

/-- Concrete file with no embedded EXIF payload at all. -/
def fileNoExif : FileData := { pixels := bufC, exif := none }

/-- Concrete file whose EXIF payload exists but carries no UserComment
tag. -/
def fileNoField : FileData :=
  { pixels := bufC, exif := some { userComment := none } }

/-- The save outcome of `imgC.save true []` (the fallback arm is
unreachable: the save succeeds by computation). -/
def saveResC : SaveResult :=
  match imgC.save true [] with
  | Except.ok r => r
  | Except.error _ =>
      { encoder := Encoder.cv2Encoder,
        file := { pixels := bufC, exif := none },
        kwargs := [], conversions := 0 }

/-- Concrete 1 by 1 buffer with three distinct channel values, all below
256. -/
def bufD : Buf :=
  { h := 1, w := 1, c := 3, data := fun _ _ ch => ch % 3 + 10,
    contiguous := true }

/-- The image holding `bufD` as BGR (fallback unreachable). -/
def i1C : Img :=
  match mkImg (Source.arr bufD) ImgType.BGR none true with
  | Except.ok i => i
  | Except.error _ => imgC

/-- First conversion of the round-trip chain: `asRGB(B)`. -/
def r1C : Buf :=
  match i1C.rgb with
  | some r => r
  | none => bufD

/-- The image holding `r1C` as RGB (fallback unreachable). -/
def i2C : Img :=
  match mkImg (Source.arr r1C) ImgType.RGB none true with
  | Except.ok i => i
  | Except.error _ => imgC

/-- Second conversion of the round-trip chain: `asBGR(asRGB(B))`. -/
def r2C : Buf :=
  match i2C.bgr with
  | some r => r
  | none => bufD

/-- The image holding `r2C` as BGR (fallback unreachable). -/
def i3C : Img :=
  match mkImg (Source.arr r2C) ImgType.BGR none true with
  | Except.ok i => i
  | Except.error _ => imgC

/-- Third conversion of the round-trip chain:
`asRGB(asBGR(asRGB(B)))`. -/
def r3C : Buf :=
  match i3C.rgb with
  | some r => r
  | none => bufD

/-! Helper lemmas shared by the claim theorems. -/

/-- A well-formed image always has a PIL form: `Img.pil` cannot miss. -/
theorem Img.wf_pil (img : Img) (hwf : img.wf = true) : ∃ p, img.pil = some p := by
  unfold Img.wf at hwf
  unfold Img.pil
  cases ht : img.itype <;> cases hs : img.source <;> simp_all

/-- Images built by the constructor are well-formed. -/
theorem mkImg_wf (s : Source) (t : ImgType) (meta : Option Json) (mac : Bool)
    (img : Img) (h : mkImg s t meta mac = Except.ok img) : img.wf = true := by
  cases t <;> cases s <;> simp [mkImg] at h <;>
    simp [← h, Img.wf]

/-- The constructor on an array source with an array representation always
succeeds, never changes pixel content, and records the (possibly
normalized) buffer's dimensions. -/
theorem mkImg_arr_ok (b : Buf) (t : ImgType) (meta : Option Json) (mac : Bool)
    (ht : t = ImgType.BGR ∨ t = ImgType.RGB) :
    ∃ b2, mkImg (Source.arr b) t meta mac =
        Except.ok { source := Source.arr b2, itype := t, metadata := meta,
                    make_arrays_contiguous := mac, h := b2.h, w := b2.w } ∧
      b2.h = b.h ∧ b2.w = b.w ∧ b2.c = b.c ∧ b2.data = b.data := by
  rcases ht with h | h <;> subst h <;> exact ⟨b, rfl, rfl, rfl, rfl, rfl⟩

/-! Claim theorems. -/

/-- C2 (code bug): for a buffer-backed source, construction with
`make_arrays_contiguous = true` completes but stores the supplied buffer
itself — `self.source = source` at img.py line 38 runs before the
normalization, and line 51 rebinds only the local variable, so the
contiguous copy is discarded.  A non-contiguous source therefore stays
non-contiguous in the stored image, contradicting the spec's invariant. -/
theorem c2_noncontiguous_stored (b : Buf) (t : ImgType) (meta : Option Json)
    (ht : t = ImgType.BGR ∨ t = ImgType.RGB) :
    ∃ img, mkImg (Source.arr b) t meta true = Except.ok img ∧
      img.source = Source.arr b := by
  rcases ht with h | h <;> subst h <;> exact ⟨_, rfl, rfl⟩

/-- Witness for C2 at the concrete non-contiguous buffer: construction
succeeds yet the stored source is the original buffer, still
non-contiguous. -/
theorem c2_witness :
    bufNC.contiguous = false ∧
    ∃ img, mkImg (Source.arr bufNC) ImgType.BGR none true = Except.ok img ∧
      img.source = Source.arr bufNC :=
  ⟨rfl, c2_noncontiguous_stored bufNC ImgType.BGR none (Or.inl rfl)⟩

/-- C5: identity conversion is a no-op — when the representation already
equals the requested target, `rgb`/`bgr` return a buffer pixel-identical
to the stored source and `pil` returns the stored object itself, for
either setting of the contiguity flag (the receiver, a pure value, is
never mutated). -/
theorem c5_identity_noop (img : Img) :
    (∀ b, img.itype = ImgType.RGB → img.source = Source.arr b →
      ∃ res, img.rgb = some res ∧ res.pixEq b) ∧
    (∀ b, img.itype = ImgType.BGR → img.source = Source.arr b →
      ∃ res, img.bgr = some res ∧ res.pixEq b) ∧
    (∀ p, img.itype = ImgType.PIL → img.source = Source.pil p →
      img.pil = some p) := by
  refine ⟨?_, ?_, ?_⟩ <;> intro s ht hs
  · unfold Img.rgb
    rw [ht, hs]
    cases hm : img.make_arrays_contiguous <;>
      simp [hm, np_ascontiguousarray, Buf.pixEq]
  · unfold Img.bgr
    rw [ht, hs]
    cases hm : img.make_arrays_contiguous <;>
      simp [hm, np_ascontiguousarray, Buf.pixEq]
  · unfold Img.pil
    rw [ht, hs]

/-- Witness for C5: a concrete RGB image with the contiguity flag unset
returns its own buffer, and a concrete PIL image returns its own object. -/
theorem c5_witness :
    (∃ res,
      Img.rgb { source := Source.arr { h := 1, w := 1, c := 3,
                                       data := fun _ _ _ => 9,
                                       contiguous := true },
                itype := ImgType.RGB, metadata := none,
                make_arrays_contiguous := false, h := 1, w := 1 } = some res ∧
      res.pixEq { h := 1, w := 1, c := 3, data := fun _ _ _ => 9,
                  contiguous := true }) ∧
    Img.pil { source := Source.pil { pixels := { h := 1, w := 1, c := 3,
                                                 data := fun _ _ _ => 9,
                                                 contiguous := true },
                                     infoExif := none },
              itype := ImgType.PIL, metadata := none,
              make_arrays_contiguous := true, h := 1, w := 1 } =
      some { pixels := { h := 1, w := 1, c := 3, data := fun _ _ _ => 9,
                         contiguous := true }, infoExif := none } :=
  ⟨(c5_identity_noop _).1 _ rfl rfl, (c5_identity_noop _).2.2 _ rfl rfl⟩

/-- C7: saving with `save_metadata = true`, metadata present, and a
caller-supplied `exif` keyword fails with the conflicting-option error;
the error return means no file is written. -/
theorem c7_conflicting_option (img : Img) (m : Json) (kwargs : Kwargs)
    (hwf : img.wf = true) (hm : img.metadata = some m)
    (hk : Kwargs.hasKey kwargs "exif" = true) :
    img.save true kwargs = Except.error Err.conflictingOption := by
  obtain ⟨p, hp⟩ := Img.wf_pil img hwf
  unfold Img.save
  rw [hm]
  simp [hp, hk]

/-- Witness for C7 at a concrete BGR image carrying metadata and a kwargs
dict that already binds `exif`. -/
theorem c7_witness :
    Img.save { source := Source.arr { h := 1, w := 1, c := 3,
                                      data := fun _ _ _ => 0,
                                      contiguous := true },
               itype := ImgType.BGR, metadata := some (Json.str "cat"),
               make_arrays_contiguous := true, h := 1, w := 1 }
        true [("exif", OptVal.exif { userComment := none })] =
      Except.error Err.conflictingOption :=
  c7_conflicting_option _ (Json.str "cat") _ rfl rfl rfl

/-- C9: cropping a PIL-represented image with `copy = false` fails with
the unsupported-option error and produces no image, while `copy = true`
succeeds. -/
theorem c9_pil_crop (img : Img) (p : PILImg) (r : Rectangle)
    (ht : img.itype = ImgType.PIL) (hp : img.source = Source.pil p) :
    img.crop r false = Except.error Err.unsupportedOption ∧
    ∃ img2, img.crop r true = Except.ok img2 := by
  unfold Img.crop
  rw [ht, hp]
  simp [mkImg]

/-- Witness for C9 at a concrete PIL image. -/
theorem c9_witness :
    Img.crop { source := Source.pil { pixels := { h := 2, w := 2, c := 3,
                                                  data := fun _ _ _ => 1,
                                                  contiguous := true },
                                      infoExif := none },
               itype := ImgType.PIL, metadata := none,
               make_arrays_contiguous := true, h := 2, w := 2 }
        { x0 := 0, y0 := 0, x1 := 0, y1 := 0 } false =
      Except.error Err.unsupportedOption ∧
    ∃ img2,
      Img.crop { source := Source.pil { pixels := { h := 2, w := 2, c := 3,
                                                    data := fun _ _ _ => 1,
                                                    contiguous := true },
                                        infoExif := none },
                 itype := ImgType.PIL, metadata := none,
                 make_arrays_contiguous := true, h := 2, w := 2 }
          { x0 := 0, y0 := 0, x1 := 0, y1 := 0 } true = Except.ok img2 :=
  c9_pil_crop _ { pixels := { h := 2, w := 2, c := 3, data := fun _ _ _ => 1,
                              contiguous := true }, infoExif := none }
    _ rfl rfl

/-- C10: when effective metadata saving is disabled (flag off or metadata
absent) and the representation is BGR or RGB, the save succeeds through
the cv2 encoder with an empty option list — caller-supplied options,
including an explicit `exif` one, are silently dropped, and the default
`optimize` option is not applied. -/
theorem c10_cv2_ignores_kwargs (img : Img) (b : Buf) (sm : Bool)
    (kwargs : Kwargs) (hb : img.source = Source.arr b)
    (ht : img.itype = ImgType.BGR ∨ img.itype = ImgType.RGB)
    (hoff : sm = false ∨ img.metadata = none) :
    ∃ res, img.save sm kwargs = Except.ok res ∧
      res.encoder = Encoder.cv2Encoder ∧ res.kwargs = [] ∧
      Kwargs.get res.kwargs "optimize" = none ∧
      Kwargs.get res.kwargs "exif" = none := by
  have hshould : (sm && img.metadata.isSome) = false := by
    rcases hoff with h | h <;> simp [h]
  unfold Img.save
  rcases ht with h | h <;> rw [h, hb] <;> simp [hshould, Kwargs.get]

/-- Witness for C10: a metadata-free RGB image saved with
`save_metadata = true` and an explicit `exif` kwarg still succeeds through
cv2 with no options. -/
theorem c10_witness :
    ∃ res,
      Img.save { source := Source.arr { h := 1, w := 1, c := 3,
                                        data := fun _ _ _ => 4,
                                        contiguous := true },
                 itype := ImgType.RGB, metadata := none,
                 make_arrays_contiguous := true, h := 1, w := 1 }
          true [("exif", OptVal.exif { userComment := none })] =
        Except.ok res ∧
      res.encoder = Encoder.cv2Encoder ∧ res.kwargs = [] ∧
      Kwargs.get res.kwargs "optimize" = none ∧
      Kwargs.get res.kwargs "exif" = none :=
  c10_cv2_ignores_kwargs _ { h := 1, w := 1, c := 3, data := fun _ _ _ => 4,
                             contiguous := true }
    true _ rfl (Or.inr rfl) (Or.inr rfl)

/-- C6: save encoder routing — a successful save ran the structured
(PIL) encoder exactly when effective metadata saving was enabled
(`save_metadata` set and metadata present) or the representation is PIL;
otherwise it ran the cv2 buffer encoder, performing exactly one
channel-order conversion for an RGB image and none for a BGR one. -/
theorem c6_encoder_routing (img : Img) (sm : Bool) (kwargs : Kwargs)
    (res : SaveResult) (h : img.save sm kwargs = Except.ok res) :
    (res.encoder = Encoder.pilEncoder ↔
      ((sm && img.metadata.isSome) = true ∨ img.itype = ImgType.PIL)) ∧
    (res.encoder = Encoder.cv2Encoder →
      (img.itype = ImgType.RGB → res.conversions = 1) ∧
      (img.itype = ImgType.BGR → res.conversions = 0)) := by
  simp only [Img.save] at h
  by_cases hc : (img.itype == ImgType.PIL || sm && img.metadata.isSome) = true
  · rw [if_pos hc] at h
    simp only [Bool.or_eq_true, beq_iff_eq] at hc
    cases hp : img.pil with
    | none => rw [hp] at h; exact Except.noConfusion h
    | some p =>
      rw [hp] at h
      split at h
      · exact Except.noConfusion h
      · split at h
        · exact Except.noConfusion h
        · injection h with h
          subst h
          exact ⟨⟨fun _ => hc.elim Or.inr Or.inl, fun _ => rfl⟩,
            fun hcv => Encoder.noConfusion hcv⟩
  · rw [if_neg hc] at h
    simp only [Bool.or_eq_true, beq_iff_eq, not_or] at hc
    cases ht : img.itype <;> cases hs : img.source <;> simp_all
    all_goals subst h
    all_goals refine ⟨⟨fun h2 => Encoder.noConfusion h2, ?_⟩, fun _ => rfl⟩
    all_goals rintro ⟨hsm, hmi⟩
    all_goals rw [hc hsm] at hmi
    all_goals exact Bool.noConfusion hmi

/-- Witness for C6 at a concrete metadata-free BGR image: the save goes
through the cv2 encoder with zero conversions. -/
theorem c6_witness :
    (let res : SaveResult :=
      { encoder := Encoder.cv2Encoder,
        file := cv2_imwrite { h := 1, w := 1, c := 3, data := fun _ _ _ => 5,
                              contiguous := true },
        kwargs := [], conversions := 0 }
     (res.encoder = Encoder.pilEncoder ↔
       ((true && (none : Option Json).isSome) = true ∨
         ImgType.BGR = ImgType.PIL)) ∧
     (res.encoder = Encoder.cv2Encoder →
       (ImgType.BGR = ImgType.RGB → res.conversions = 1) ∧
       (ImgType.BGR = ImgType.BGR → res.conversions = 0))) :=
  c6_encoder_routing
    { source := Source.arr { h := 1, w := 1, c := 3, data := fun _ _ _ => 5,
                             contiguous := true },
      itype := ImgType.BGR, metadata := none,
      make_arrays_contiguous := true, h := 1, w := 1 }
    true [] _ rfl

/-- Cropping a buffer-backed image always succeeds with the sliced
dimensions: the resulting image records the numpy slice's (clamped)
extents and carries the requested tag and metadata. -/
theorem crop_arr_result (b : Buf) (r : Rectangle) (cpy : Bool) (t : ImgType)
    (meta : Option Json) (img2 : Img)
    (ht : t = ImgType.BGR ∨ t = ImgType.RGB)
    (h : mkImg
        (Source.arr (if cpy then (r.slice_array b).copy else r.slice_array b))
        t meta true = Except.ok img2) :
    img2.w = min (r.x1 + 1) b.w - r.x0 ∧
    img2.h = min (r.y1 + 1) b.h - r.y0 ∧
    img2.itype = t ∧ img2.metadata = meta := by
  obtain ⟨b2, hmk, hh, hw, -, -⟩ :=
    mkImg_arr_ok (if cpy then (r.slice_array b).copy else r.slice_array b)
      t meta true ht
  rw [hmk] at h
  injection h with h
  subst h
  have hsw : (if cpy then (r.slice_array b).copy else r.slice_array b).w =
      (r.slice_array b).w := by cases cpy <;> rfl
  have hsh : (if cpy then (r.slice_array b).copy else r.slice_array b).h =
      (r.slice_array b).h := by cases cpy <;> rfl
  exact ⟨hw.trans hsw, hh.trans hsh, rfl, rfl⟩

/-- C8: dimension invariance under crop — for a well-formed image of
either kind and a rectangle within bounds, a successful crop yields an
image of width `x1 - x0 + 1` and height `y1 - y0 + 1` (the region is
inclusive on both axes), with the receiver's representation and metadata
preserved. -/
theorem c8_crop_dims (img : Img) (r : Rectangle) (cpy : Bool) (img2 : Img)
    (hwf : img.wf = true)
    (hx : r.x0 ≤ r.x1) (hy : r.y0 ≤ r.y1)
    (hxw : r.x1 < img.w) (hyh : r.y1 < img.h)
    (hc : img.crop r cpy = Except.ok img2) :
    img2.w = r.x1 - r.x0 + 1 ∧ img2.h = r.y1 - r.y0 + 1 ∧
    img2.itype = img.itype ∧ img2.metadata = img.metadata := by
  obtain ⟨src, t, meta, mac, ih, iw⟩ := img
  cases t <;> cases src
  case BGR.pil p => exact Bool.noConfusion hwf
  case RGB.pil p => exact Bool.noConfusion hwf
  case PIL.arr b => exact Bool.noConfusion hwf
  case BGR.arr b =>
    have hhw : (ih == b.h && iw == b.w) = true := hwf
    obtain ⟨hih, hiw⟩ : ih = b.h ∧ iw = b.w := by simpa using hhw
    have hxw2 : r.x1 < iw := hxw
    have hyh2 : r.y1 < ih := hyh
    have hd := crop_arr_result b r cpy ImgType.BGR meta img2 (Or.inl rfl) hc
    refine ⟨?_, ?_, hd.2.2.1, hd.2.2.2⟩
    · rw [hd.1]; omega
    · rw [hd.2.1]; omega
  case RGB.arr b =>
    have hhw : (ih == b.h && iw == b.w) = true := hwf
    obtain ⟨hih, hiw⟩ : ih = b.h ∧ iw = b.w := by simpa using hhw
    have hxw2 : r.x1 < iw := hxw
    have hyh2 : r.y1 < ih := hyh
    have hd := crop_arr_result b r cpy ImgType.RGB meta img2 (Or.inr rfl) hc
    refine ⟨?_, ?_, hd.2.2.1, hd.2.2.2⟩
    · rw [hd.1]; omega
    · rw [hd.2.1]; omega
  case PIL.pil p =>
    cases cpy with
    | false => exact Except.noConfusion hc
    | true =>
      injection hc with h2
      subst h2
      refine ⟨?_, ?_, rfl, rfl⟩
      · show r.x1 + 1 - r.x0 = r.x1 - r.x0 + 1
        omega
      · show r.y1 + 1 - r.y0 = r.y1 - r.y0 + 1
        omega

/-- Witness for C8 at a concrete 2 by 2 BGR image and the rectangle from
`(0, 0)` to `(1, 1)`. -/
theorem c8_witness :
    (cropResC.w = rectC.x1 - rectC.x0 + 1 ∧
      cropResC.h = rectC.y1 - rectC.y0 + 1 ∧
      cropResC.itype = imgC.itype ∧ cropResC.metadata = imgC.metadata) :=
  c8_crop_dims imgC rectC false cropResC rfl
    (by decide) (by decide) (by decide) (by decide) rfl

/-- The channel swap of `cv2.cvtColor` is an involution. -/
theorem swapCh_swapCh (ch : Nat) : swapCh (swapCh ch) = ch := by
  by_cases h0 : ch = 0 <;> by_cases h2 : ch = 2 <;> simp [swapCh, h0, h2]

/-- Calling `rgb` on a constructed BGR image returns the source buffer
with channels 0 and 2 swapped (and unchanged dimensions). -/
theorem rgb_of_bgr (b : Buf) (meta : Option Json) (mac : Bool) (img : Img)
    (res : Buf)
    (hmk : mkImg (Source.arr b) ImgType.BGR meta mac = Except.ok img)
    (hr : img.rgb = some res) :
    res.h = b.h ∧ res.w = b.w ∧ res.c = b.c ∧
    ∀ y x ch, res.data y x ch = b.data y x (swapCh ch) := by
  obtain ⟨b2, hmk2, hh, hw, hcnum, hdata⟩ :=
    mkImg_arr_ok b ImgType.BGR meta mac (Or.inl rfl)
  rw [hmk2] at hmk
  injection hmk with hmk
  subst hmk
  cases mac with
  | true =>
      injection hr with hr
      subst hr
      exact ⟨hh, hw, hcnum, fun y x ch =>
        congrFun (congrFun (congrFun hdata y) x) (swapCh ch)⟩
  | false =>
      injection hr with hr
      subst hr
      exact ⟨hh, hw, hcnum, fun y x ch =>
        congrFun (congrFun (congrFun hdata y) x) (swapCh ch)⟩

/-- Calling `bgr` on a constructed RGB image returns the source buffer
with channels 0 and 2 swapped (and unchanged dimensions). -/
theorem bgr_of_rgb (b : Buf) (meta : Option Json) (mac : Bool) (img : Img)
    (res : Buf)
    (hmk : mkImg (Source.arr b) ImgType.RGB meta mac = Except.ok img)
    (hr : img.bgr = some res) :
    res.h = b.h ∧ res.w = b.w ∧ res.c = b.c ∧
    ∀ y x ch, res.data y x ch = b.data y x (swapCh ch) := by
  obtain ⟨b2, hmk2, hh, hw, hcnum, hdata⟩ :=
    mkImg_arr_ok b ImgType.RGB meta mac (Or.inr rfl)
  rw [hmk2] at hmk
  injection hmk with hmk
  subst hmk
  cases mac with
  | true =>
      injection hr with hr
      subst hr
      exact ⟨hh, hw, hcnum, fun y x ch =>
        congrFun (congrFun (congrFun hdata y) x) (swapCh ch)⟩
  | false =>
      injection hr with hr
      subst hr
      exact ⟨hh, hw, hcnum, fun y x ch =>
        congrFun (congrFun (congrFun hdata y) x) (swapCh ch)⟩

/-- C4: round-trip losslessness of channel-order conversion — for any
8-bit buffer `B` held as BGR, `asRGB(asBGR(asRGB(B)))` equals `asRGB(B)`
pixel-for-pixel, and the BGR/RGB conversion swaps channels 2 and 0 on the
last axis leaving channel 1 unchanged. -/
theorem c4_roundtrip (b r1 r2 r3 : Buf) (i1 i2 i3 : Img) (mac : Bool)
    (h8 : ∀ y x ch, b.data y x ch < 256)
    (h1 : mkImg (Source.arr b) ImgType.BGR none mac = Except.ok i1)
    (hr1 : i1.rgb = some r1)
    (h2 : mkImg (Source.arr r1) ImgType.RGB none mac = Except.ok i2)
    (hr2 : i2.bgr = some r2)
    (h3 : mkImg (Source.arr r2) ImgType.BGR none mac = Except.ok i3)
    (hr3 : i3.rgb = some r3) :
    r3.pixEq r1 ∧
    (∀ y x, r1.data y x 0 = b.data y x 2 ∧ r1.data y x 1 = b.data y x 1 ∧
      r1.data y x 2 = b.data y x 0) := by
  have e1 := rgb_of_bgr b none mac i1 r1 h1 hr1
  have e2 := bgr_of_rgb r1 none mac i2 r2 h2 hr2
  have e3 := rgb_of_bgr r2 none mac i3 r3 h3 hr3
  refine ⟨⟨e3.1.trans e2.1, e3.2.1.trans e2.2.1, e3.2.2.1.trans e2.2.2.1,
      fun y x ch => ?_⟩,
    fun y x => ⟨e1.2.2.2 y x 0, e1.2.2.2 y x 1, e1.2.2.2 y x 2⟩⟩
  rw [e3.2.2.2 y x ch, e2.2.2.2 y x (swapCh ch), swapCh_swapCh]

/-- Witness for C4 on a concrete 1 by 1 buffer with channel values 10,
11, 12. -/
theorem c4_witness :
    (∀ y x ch, bufD.data y x ch < 256) ∧
    (r3C.pixEq r1C ∧
      (∀ y x, r1C.data y x 0 = bufD.data y x 2 ∧
        r1C.data y x 1 = bufD.data y x 1 ∧
        r1C.data y x 2 = bufD.data y x 0)) :=
  ⟨fun _ _ ch => by simp only [bufD]; omega,
   c4_roundtrip bufD r1C r2C r3C i1C i2C i3C true
     (fun _ _ ch => by simp only [bufD]; omega) rfl rfl rfl rfl rfl rfl⟩

/-- C3 counterexample: on a file whose EXIF payload exists but has no
UserComment tag, a metadata-requesting load raises `KeyError` instead of
yielding `metadata = None` — so the claim that such a load does not fail
is false on the code. -/
theorem c3_counterexample :
    Img.load fileNoField ImgType.BGR true = Except.error Err.keyError ∧
    ¬ ∃ img2, Img.load fileNoField ImgType.BGR true = Except.ok img2 := by
  refine ⟨rfl, ?_⟩
  rintro ⟨img2, h⟩
  rw [show Img.load fileNoField ImgType.BGR true = Except.error Err.keyError
    from rfl] at h
  exact Except.noConfusion h

/-- C3 (amended): a metadata-requesting load yields `metadata = None`
without failing when the file has no embedded EXIF payload; when an EXIF
payload is present but its UserComment tag is absent, the load fails with
`KeyError`. -/
theorem c3_absent_metadata (f : FileData) (t : ImgType) :
    (f.exif = none →
      ∃ img2, Img.load f t true = Except.ok img2 ∧ img2.metadata = none) ∧
    (∀ e, f.exif = some e → e.userComment = none →
      Img.load f t true = Except.error Err.keyError) := by
  obtain ⟨px, ex⟩ := f
  constructor
  · intro hnone
    have h2 : ex = none := hnone
    subst h2
    cases t <;> exact ⟨_, rfl, rfl⟩
  · intro e he hu
    have he2 : ex = some e := he
    subst he2
    obtain ⟨uc⟩ := e
    have hu2 : uc = none := hu
    subst hu2
    rfl

/-- Witness for C3 (amended) at the two concrete files. -/
theorem c3_witness :
    (∃ img2, Img.load fileNoExif ImgType.RGB true = Except.ok img2 ∧
      img2.metadata = none) ∧
    Img.load fileNoField ImgType.RGB true = Except.error Err.keyError :=
  ⟨(c3_absent_metadata fileNoExif ImgType.RGB).1 rfl,
   (c3_absent_metadata fileNoField ImgType.RGB).2
     { userComment := none } rfl rfl⟩

/-- C1: metadata round-trip — an image carrying metadata `m`, saved with
`save_metadata = true` and no extra options, produces a file that a
metadata-requesting load (into any representation) reads back with
metadata `m`. -/
theorem c1_metadata_roundtrip (img : Img) (m : Json) (t2 : ImgType)
    (res : SaveResult) (hm : img.metadata = some m)
    (hs : img.save true [] = Except.ok res) :
    ∃ img2, Img.load res.file t2 true = Except.ok img2 ∧
      img2.metadata = some m := by
  cases hp : img.pil with
  | none =>
      exfalso
      unfold Img.save at hs
      rw [hm, hp] at hs
      simp only [Option.isSome_some, Bool.and_true, Bool.or_true,
        if_true] at hs
      exact Except.noConfusion hs
  | some p =>
      unfold Img.save at hs
      rw [hm, hp] at hs
      simp only [Option.isSome_some, Bool.and_true, Bool.or_true, if_true,
        Kwargs.hasKey, List.any_nil, Bool.and_false, Bool.false_eq_true,
        if_false, Except.ok.injEq] at hs
      subst hs
      cases t2 <;> exact ⟨_, rfl, rfl⟩

/-- Witness for C1: the concrete BGR image `imgC` with metadata
`"cat"`, saved and reloaded as RGB. -/
theorem c1_witness :
    imgC.metadata = some (Json.str "cat") ∧
    ∃ img2, Img.load saveResC.file ImgType.RGB true = Except.ok img2 ∧
      img2.metadata = some (Json.str "cat") :=
  ⟨rfl,
   c1_metadata_roundtrip imgC (Json.str "cat") ImgType.RGB saveResC rfl rfl⟩

end AwareImg
